import Mathlib

/-
Verification development for the surveyClicker repository (src/app/main.py).

The program cycles through OpenVPN configuration files; for each one it
starts an OpenVPN subprocess, waits for a success signature on the
combined output stream, performs one scripted Playwright browser action,
and tears the tunnel down.  This file gives a shallow embedding of the
Python source: pure control flow becomes Lean functions, fallible calls
(subprocess spawn, Playwright steps) become explicit environment booleans
or Except values, and the blocking readline of the polling loop becomes an
explicit observation stream.
-/

namespace SurveyClicker

/-! ## String utilities

Python's `needle in haystack` substring test, modelled over character
lists so that it is executable and decidable. -/

/-- Tests whether the first character list starts the second one. -/
def leadsWith : List Char → List Char → Bool
  | [], _ => true
  | _ :: _, [] => false
  | a :: as, b :: bs => a == b && leadsWith as bs

/-- Tests whether the first character list occurs inside the second one. -/
def containsSeq (needle : List Char) : List Char → Bool
  | [] => leadsWith needle []
  | b :: bs => leadsWith needle (b :: bs) || containsSeq needle bs

/-- Python's substring containment test: needle in hay. -/
def strContains (hay needle : String) : Bool :=
  containsSeq needle.toList hay.toList

/-- Python truthiness of an optional environment string: None and the
empty string are falsy, any other string is truthy. -/
def truthy : Option String → Bool
  | none => false
  | some s => !(s == "")

/-! ## Output-line classification (main.py lines 135 and 140)

Line 140: "Initialization Sequence Completed" in line or
"CONNECTED,SUCCESS" in line.
Line 135: "Enter Auth Username" in line or ("AUTH" in line and
"Username" in line) - Python precedence groups the and before the or. -/

/-- Success signature test of main.py line 140. -/
def isSuccessLine (s : String) : Bool :=
  strContains s "Initialization Sequence Completed" || strContains s "CONNECTED,SUCCESS"

/-- Interactive-auth prompt test of main.py line 135 (without the
credential-file conjunct, which is threaded separately). -/
def isAuthLine (s : String) : Bool :=
  strContains s "Enter Auth Username" || (strContains s "AUTH" && strContains s "Username")

/-! ## The supervisor polling loop (main.py lines 120-146)

Each iteration of the Python loop first calls proc.poll(), then
proc.stdout.readline().  readline on a live pipe BLOCKS until the process
produces a line (or closes the stream, returning "").  One iteration is
therefore summarised by one observation.  Time is measured in tenths of a
second, the unit of the time.sleep(0.1) poll pause; a readline that
returns after d tenths contributes d to the elapsed clock, and each loop
iteration adds one more tenth for the sleep. -/

/-- One observation of the polling loop per iteration:
an already-exited process (proc.poll() is not None), a line returned by
readline after blocking for dur tenths of a second ("" models EOF), or a
readline call that never returns because the live process stays silent. -/
inductive Obs where
  | exited (code : Int)
  | line (s : String) (dur : Nat)
  | block
deriving DecidableEq

/-- The exceptions start_openvpn can raise, one constructor per raise
site in main.py. -/
inductive TunnelError where
  | noCredentials          -- line 68: neither auth file nor user/pass configured
  | binNotFound            -- line 80: binary not found, also not in PATH
  | authFileMissing        -- line 93: OPENVPN_AUTH_FILE set but absent
  | credWriteFailed        -- line 113: writing the temp credential file failed
  | spawnFailed            -- line 118: subprocess.Popen itself raised
  | procFailedCode (code : Int)  -- line 128: process exited non-zero pre-connect
  | procExitedEarly        -- line 130: process exited with status 0 pre-connect
  | authRequired           -- line 136: interactive auth prompt, no credentials
  | connectTimeout         -- line 145: connect deadline exceeded
deriving DecidableEq

/-- Result of the polling loop: the success break of line 143, a raised
exception, or the loop stuck forever inside a blocking readline. -/
inductive PollResult where
  | connected
  | failed (e : TunnelError)
  | hangs
deriving DecidableEq

/-- The polling loop of main.py lines 124-146, driven by the observation
stream obs from iteration index i with elapsed clock t (tenths of a
second).  Returns the loop outcome together with the elapsed clock at the
moment the loop resolved.  Termination: each non-terminal iteration
strictly increases t while the timeout guard bounds it by the deadline. -/
def pollLoop (hasCred : Bool) (deadline : Nat) (obs : Nat → Obs) (i t : Nat) :
    PollResult × Nat :=
  match obs i with
  | .exited c =>
      if c = 0 then (.failed .procExitedEarly, t)
      else (.failed (.procFailedCode c), t)
  | .block => (.hangs, t)
  | .line s dur =>
      if s ≠ "" ∧ isAuthLine s = true ∧ hasCred = false then
        (.failed .authRequired, t + dur)
      else if s ≠ "" ∧ isSuccessLine s = true then
        (.connected, t + dur)
      else if t + dur > deadline then
        (.failed .connectTimeout, t + dur)
      else
        pollLoop hasCred deadline obs (i + 1) (t + dur + 1)
termination_by deadline + 1 - t
decreasing_by simp_wf; omega

/-! ## Configuration (main.py lines 26-42)

The module-level configuration constants that the supervisor and
orchestrator read.  MAX_RETRIES and RETRY_DELAY are defined by the source
(lines 40-41) and are carried here so that their irrelevance is a
statement about this model, not an omission of it. -/

/-- The environment-derived configuration constants of main.py. -/
structure Config where
  openvpnBin : String            -- OPENVPN_BIN
  openvpnAuthFile : Option String  -- OPENVPN_AUTH_FILE
  openvpnUser : Option String    -- OPENVPN_USER
  openvpnPass : Option String    -- OPENVPN_PASS
  connectTimeout : Nat           -- CONNECT_TIMEOUT, seconds
  maxRetries : Nat               -- MAX_RETRIES, read by no other code
  retryDelay : Nat               -- RETRY_DELAY, read by no other code

/-! ## The tunnel session scope (main.py lines 57-164)

start_openvpn is a contextmanager: credential precheck, binary
resolution, credential-argument preparation, subprocess spawn, the
polling loop, yield, and a finally block that terminates the process and
removes the transient credential file.  The external world of one
invocation is a SupEnv: which paths exist, whether shutil.which resolves
the binary, whether writing the temp file and spawning succeed, and the
process's observable output behaviour. -/

/-- External world of one start_openvpn invocation. -/
structure SupEnv where
  fs : String → Bool             -- os.path.exists
  whichAlt : Option String       -- shutil.which(basename(OPENVPN_BIN))
  tmpName : String               -- name chosen by NamedTemporaryFile
  tmpWriteOk : Bool              -- write/close/chmod of the temp file succeed
  spawnOk : Bool                 -- subprocess.Popen succeeds
  obs : Nat → Obs                -- output behaviour of the spawned process

/-- Which --auth-user-pass argument the command was built with:
an existing auth file, the transient temp file, or none (lines 89-113). -/
inductive CredArg where
  | file
  | temp
  | noAuth
deriving DecidableEq

/-- True exactly for the transient temp-file credential argument. -/
def credIsTemp : CredArg → Bool
  | .temp => true
  | _ => false

/-- Lifecycle events of one run, used to state the sequencing invariant:
a process was spawned (line 118), the session reached Connected (line
141), the teardown of the finally block ran (lines 149-157). -/
inductive Ev where
  | spawn
  | connected
  | terminated
deriving DecidableEq

/-- How one start_openvpn scope resolved: the with-body ran and finished
(bodyOk), the body itself raised (bodyError), acquisition raised a tunnel
error, or the polling loop blocked forever so the scope never exits. -/
inductive ScopeExit where
  | bodyOk
  | bodyError
  | acqError (e : TunnelError)
  | acqHangs
deriving DecidableEq

/-- Observable outcome of one start_openvpn scope: how it resolved,
whether the transient credential file is still on disk afterwards, and
the lifecycle events it produced. -/
structure ScopeResult where
  scopeExit : ScopeExit
  credFileExists : Bool
  trace : List Ev
deriving DecidableEq

/-- Spawn and supervise (main.py lines 115-164).  The transient
credential file, when cred = temp, was already created at this point; the
try/finally that deletes it only begins at line 122, after the Popen call
of line 118, so a spawn failure leaves the file on disk.  On every exit
of the try block the finally terminates the process and removes the temp
file (removal modelled as succeeding; its failures are logged only). -/
def spawnAndPoll (cfg : Config) (env : SupEnv) (bodyFaults : Bool) (cred : CredArg) :
    ScopeResult :=
  let onDisk := credIsTemp cred
  if env.spawnOk = false then
    ⟨.acqError .spawnFailed, onDisk, []⟩
  else
    -- line 135 condition: OPENVPN_AUTH_FILE or cred_temp_path
    let hasCred := truthy cfg.openvpnAuthFile || credIsTemp cred
    match pollLoop hasCred (10 * cfg.connectTimeout) env.obs 0 0 with
    | (.connected, _) =>
        ⟨if bodyFaults then .bodyError else .bodyOk, false,
          [.spawn, .connected, .terminated]⟩
    | (.failed e, _) => ⟨.acqError e, false, [.spawn, .terminated]⟩
    | (.hangs, _) => ⟨.acqHangs, onDisk, [.spawn]⟩

/-- The whole start_openvpn scope (main.py lines 57-164): credential
precheck (line 67), binary resolution (lines 74-85), credential-argument
preparation (lines 89-113), then spawn and supervision.  bodyFaults says
whether the code inside the with-block raises. -/
def startOpenvpnScoped (cfg : Config) (env : SupEnv) (bodyFaults : Bool) :
    ScopeResult :=
  if (truthy cfg.openvpnAuthFile
      || (truthy cfg.openvpnUser && truthy cfg.openvpnPass)) = false then
    ⟨.acqError .noCredentials, false, []⟩
  else if env.fs cfg.openvpnBin = false ∧ env.whichAlt = none then
    ⟨.acqError .binNotFound, false, []⟩
  else if truthy cfg.openvpnAuthFile then
    if env.fs (cfg.openvpnAuthFile.getD "") = false then
      ⟨.acqError .authFileMissing, false, []⟩
    else spawnAndPoll cfg env bodyFaults .file
  else if truthy cfg.openvpnUser && truthy cfg.openvpnPass then
    if env.tmpWriteOk = false then
      -- the except block of lines 105-113 removes the temp file and re-raises
      ⟨.acqError .credWriteFailed, false, []⟩
    else spawnAndPoll cfg env bodyFaults .temp
  else
    -- unreachable given the precheck of line 67; kept for faithfulness
    spawnAndPoll cfg env bodyFaults .noAuth

/-! ## Playwright locators of perform_web_action (main.py lines 189-196)

The anchor locator combines a selector with a literal-text filter; the
vote button and the vote-count display are located by walking the fixed
xpath=../../../.. (four ancestor levels) from the anchor and selecting
within that section.  A Page abstracts the DOM: which element paths match
a selector and which contain a text. -/

/-- Locator expressions built by perform_web_action. -/
inductive Locator where
  | anchorSel (sel txt : String)          -- page.locator("sel >> text=txt")
  | ancestor (base : Locator) (levels : Nat)  -- .locator("xpath=../../..")
  | select (base : Locator) (sel : String)    -- .locator(sel)
deriving DecidableEq

/-- Abstract page: element paths (child-index lists from the root) with a
selector-match relation and a text-containment relation. -/
structure Page where
  matchesSel : List Nat → String → Bool
  hasText : List Nat → String → Bool

/-- Strict-descendant relation on element paths. -/
def descOf (p q : List Nat) : Prop := ∃ s, s ≠ [] ∧ q = p ++ s

/-- Which element paths a locator resolves to on a page: an anchor
locator resolves to matching elements containing the text, ancestor drops
the last n path components, and select picks matching strict descendants
of the base's resolutions. -/
def resolvesPW (pg : Page) : Locator → List Nat → Prop
  | .anchorSel sel txt, q => pg.matchesSel q sel = true ∧ pg.hasText q txt = true
  | .ancestor b n, q => ∃ p, resolvesPW pg b p ∧ q = p.take (p.length - n)
  | .select b sel, q => ∃ p, resolvesPW pg b p ∧ descOf p q ∧ pg.matchesSel q sel = true

/-- TARGET_TEXT of main.py line 33. -/
def targetText : String := "SDH Bukovice"

/-- BUTTON_SELECTOR of main.py line 34. -/
def buttonSelector : String := "button.survey__answer-btn"

/-- VOTES_SELECTOR of main.py line 35. -/
def votesSelector : String := ".survey__progress-text-result"

/-- The section anchor locator of main.py lines 190-192. -/
def sectionLocator : Locator := .anchorSel ".survey__progress-text" targetText

/-- The vote-button locator of main.py line 195. -/
def buttonLocator : Locator := .select (.ancestor sectionLocator 4) buttonSelector

/-- The vote-count locator of main.py line 196. -/
def votesLocator : Locator := .select (.ancestor sectionLocator 4) votesSelector

/-! ## The scripted action executor (main.py lines 166-221)

Each Playwright step either succeeds or raises PWTimeout.  A goto
timeout propagates directly (line 175 is outside the try); the consent
dialog steps are caught and ignored (lines 178-186); every later
PWTimeout is logged and re-raised by the except of lines 216-218.  The
function returns None on success: there is no outcome value type in the
source, so its result is modelled as Except. -/

/-- External world of one perform_web_action call: which bounded steps
succeed, and the two vote-count texts read. -/
structure WebEnv where
  gotoOk : Bool
  consentFound : Bool  -- consent dialog appeared; non-fatal either way
  anchorFound : Bool
  btnWaitOk : Bool     -- page-global wait of line 199
  votesWaitOk : Bool   -- page-global wait of line 200
  readBeforeOk : Bool
  clickOk : Bool
  readAfterOk : Bool
  votesBefore : String
  votesAfter : String

/-- The PWTimeout faults perform_web_action lets escape, one per raising
step. -/
inductive WebFault where
  | navigationTimeout
  | anchorTimeout
  | buttonWaitTimeout
  | votesWaitTimeout
  | readBeforeTimeout
  | clickTimeout
  | readAfterTimeout
deriving DecidableEq

/-- Observable outcome of one perform_web_action call: the escaping
exception or normal return, the locator the click targeted, and the
locators whose text content was read. -/
structure WebRun where
  result : Except WebFault Unit
  clicked : Option Locator
  reads : List Locator

/-- perform_web_action (main.py lines 166-221).  The consent branch is
modelled but has no observable effect beyond logging and a pause, which
is exactly the source behaviour: both the found and the not-found paths
continue identically.  The clicked element is buttonLocator and both
vote-count reads target votesLocator, the section-scoped locators of
lines 195-196. -/
def performWebAction (env : WebEnv) : WebRun :=
  if env.gotoOk = false then ⟨.error .navigationTimeout, none, []⟩
  else if env.anchorFound = false then ⟨.error .anchorTimeout, none, []⟩
  else if env.btnWaitOk = false then ⟨.error .buttonWaitTimeout, none, []⟩
  else if env.votesWaitOk = false then ⟨.error .votesWaitTimeout, none, []⟩
  else if env.readBeforeOk = false then ⟨.error .readBeforeTimeout, none, [votesLocator]⟩
  else if env.clickOk = false then ⟨.error .clickTimeout, none, [votesLocator]⟩
  else if env.readAfterOk = false then
    ⟨.error .readAfterTimeout, some buttonLocator, [votesLocator]⟩
  else ⟨.ok (), some buttonLocator, [votesLocator, votesLocator]⟩

/-! ## The orchestrator (main.py lines 223-264)

For each discovered configuration, main enters the start_openvpn scope;
inside it, perform_web_action runs under its own try/except (lines
255-258), so action faults are logged and never leave the with-block;
tunnel faults are caught per configuration by the handlers of lines
259-262.  A polling loop that blocks forever stalls the whole program:
no later configuration is attempted and no summary is logged. -/

/-- Per-configuration external world. -/
structure IterEnv where
  sup : SupEnv
  web : WebEnv

/-- The per-configuration record the orchestrator logs. -/
inductive IterOutcome where
  | tunnelFailed (e : TunnelError)
  | actionFailed (f : WebFault)
  | actionOk
  | hung
deriving DecidableEq

/-- One iteration of the orchestrator loop (main.py lines 249-262). -/
def processConfig (cfg : Config) (it : IterEnv) : IterOutcome × List Ev :=
  let s := startOpenvpnScoped cfg it.sup false
  match s.scopeExit with
  | .bodyOk =>
      match (performWebAction it.web).result with
      | .ok _ => (.actionOk, s.trace)
      | .error f => (.actionFailed f, s.trace)
  | .bodyError => (.actionOk, s.trace)  -- unreachable: the body never raises
  | .acqError e => (.tunnelFailed e, s.trace)
  | .acqHangs => (.hung, s.trace)

/-- What a whole run produced: the per-configuration records in loop
order, whether the final summary line of main.py line 264 was logged, and
the concatenated lifecycle trace. -/
structure RunResult where
  summary : List (String × IterOutcome)
  summaryLogged : Bool
  trace : List Ev

/-- The orchestrator loop of main.py lines 249-264: one iteration per
file; an iteration whose polling loop blocks forever stalls the program
there. -/
def runLoop (cfg : Config) (worlds : String → IterEnv) : List String → RunResult
  | [] => ⟨[], true, []⟩
  | f :: rest =>
      if (processConfig cfg (worlds f)).1 = .hung then
        ⟨[(f, (processConfig cfg (worlds f)).1)], false, (processConfig cfg (worlds f)).2⟩
      else
        let r := runLoop cfg worlds rest
        ⟨(f, (processConfig cfg (worlds f)).1) :: r.summary, r.summaryLogged,
          (processConfig cfg (worlds f)).2 ++ r.trace⟩

/-- main after discovery (main.py lines 243-264): with no discovered
files it logs an error and returns before the loop, so the completion
summary of line 264 is never reached. -/
def mainRun (cfg : Config) (worlds : String → IterEnv) (files : List String) :
    RunResult :=
  if files = [] then ⟨[], false, []⟩
  else runLoop cfg worlds files

/-- find_ovpn_files (main.py lines 52-55): glob for the .ovpn extension,
then sort lexically. -/
def findOvpnFiles (listing : List String) : List String :=
  (listing.filter (fun f => f.endsWith ".ovpn")).mergeSort (fun a b => decide (a ≤ b))

/-! ## Supporting definitions for the statements below -/

/-- True exactly when a scope ended with the interactive-auth error of
main.py line 136. -/
def isAuthRequiredExit : ScopeExit → Bool
  | .acqError .authRequired => true
  | _ => false

/-- Every take-closed count of event a stays within one of the count of
event b: between any two a events there is a b event. -/
def prefixBound (a b : Ev) (tr : List Ev) : Prop :=
  ∀ n, (tr.take n).count a ≤ (tr.take n).count b + 1

/-- The polling loop, started at observation index i with clock t,
performs k consecutive skip iterations: each observed line is classified
by no branch (no auth prompt without credentials, no success signature)
and stays within the deadline, leaving the clock at tEnd. -/
def loopSkips (obs : Nat → Obs) (hasCred : Bool) (deadline : Nat) :
    Nat → Nat → Nat → Nat → Prop
  | 0, _, t, tEnd => tEnd = t
  | k + 1, i, t, tEnd => ∃ s dur, obs i = Obs.line s dur
      ∧ ¬(s ≠ "" ∧ isAuthLine s = true ∧ hasCred = false)
      ∧ ¬(s ≠ "" ∧ isSuccessLine s = true)
      ∧ t + dur ≤ deadline
      ∧ loopSkips obs hasCred deadline k (i + 1) (t + dur + 1) tEnd

/-! ## Concrete worlds used by witnesses and counterexamples -/

/-- A configuration with an existing auth file. -/
def cfgW : Config :=
  ⟨"/usr/sbin/openvpn", some "/etc/ovpn-creds.txt", none, none, 30, 3, 5⟩

/-- A configuration with inline username and secret, no auth file. -/
def cfgUP : Config :=
  ⟨"/usr/sbin/openvpn", none, some "alice", some "hunter2", 30, 3, 5⟩

/-- A configuration with no credential source at all. -/
def cfgNoCred : Config :=
  ⟨"/usr/sbin/openvpn", none, none, none, 30, 3, 5⟩

/-- A supervisor world whose process connects immediately. -/
def supW : SupEnv :=
  ⟨fun s => (s == "/usr/sbin/openvpn") || (s == "/etc/ovpn-creds.txt"),
   none, "/tmp/ovpn-creds-w", true, true,
   fun _ => Obs.line "CONNECTED,SUCCESS" 0⟩

/-- A supervisor world whose live process never writes anything: every
readline call blocks. -/
def supHang : SupEnv :=
  ⟨fun s => (s == "/usr/sbin/openvpn") || (s == "/etc/ovpn-creds.txt"),
   none, "/tmp/ovpn-creds-w", true, true, fun _ => Obs.block⟩

/-- A supervisor world where subprocess.Popen itself raises. -/
def supSpawnFail : SupEnv :=
  ⟨fun s => s == "/usr/sbin/openvpn", none, "/tmp/ovpn-creds-x", true, false,
   fun _ => Obs.block⟩

/-- A web world where every step succeeds. -/
def webW : WebEnv := ⟨true, true, true, true, true, true, true, true, "12", "13"⟩

/-- A web world where the anchor text never appears. -/
def webFailAnchor : WebEnv := ⟨true, false, false, true, true, true, true, true, "", ""⟩

/-- Every configuration gets the immediately-connecting tunnel and the
all-success browser world. -/
def worldsW : String → IterEnv := fun _ => ⟨supW, webW⟩

/-- Every configuration gets the forever-silent tunnel process. -/
def worldsHang : String → IterEnv := fun _ => ⟨supHang, webW⟩

/-- One skipped line, then the process is seen exited with status 3. -/
def obsExit : Nat → Obs :=
  fun j => if j = 0 then Obs.line "hello" 7 else Obs.exited 3

/-- The stream goes straight to EOF after 40 s of silence, then the
process is seen exited with status 1. -/
def obsLateExit : Nat → Obs :=
  fun j => if j = 0 then Obs.line "" 400 else Obs.exited 1

/-- A concrete page: the anchor element sits at path [0,0,0,0,0], the
vote button at [0,1] and the vote count at [0,2], both inside the section
[0] four levels above the anchor. -/
def samplePage : Page :=
  ⟨fun q sel =>
      (q == [0, 0, 0, 0, 0] && sel == ".survey__progress-text")
      || (q == [0, 1] && sel == buttonSelector)
      || (q == [0, 2] && sel == votesSelector),
   fun q t => q == [0, 0, 0, 0, 0] && t == targetText⟩

/-! ## Polling-loop lemmas -/

/-- A readline call that never returns leaves the loop stuck: no timeout
check is ever reached again. -/
theorem pollLoop_blocked (hasCred : Bool) (deadline : Nat) (obs : Nat → Obs)
    (i t : Nat) (h : obs i = Obs.block) :
    pollLoop hasCred deadline obs i t = (.hangs, t) := by
  rw [pollLoop.eq_def, h]

/-- A line carrying a success signature (and no auth prompt) resolves the
loop to connected. -/
theorem pollLoop_success_line (hasCred : Bool) (deadline : Nat) (obs : Nat → Obs)
    (i t : Nat) (s : String) (dur : Nat) (h : obs i = Obs.line s dur)
    (hne : s ≠ "") (hs : isSuccessLine s = true) (ha : isAuthLine s = false) :
    pollLoop hasCred deadline obs i t = (.connected, t + dur) := by
  rw [pollLoop.eq_def, h]
  dsimp only
  rw [if_neg (by simp [ha]), if_pos ⟨hne, hs⟩]

/-- Skip iterations advance the loop without resolving it. -/
theorem pollLoop_skips (obs : Nat → Obs) (hasCred : Bool) (deadline : Nat) :
    ∀ k i t tEnd, loopSkips obs hasCred deadline k i t tEnd →
      pollLoop hasCred deadline obs i t = pollLoop hasCred deadline obs (i + k) tEnd := by
  intro k
  induction k with
  | zero =>
      intro i t tEnd h
      rw [h]
      simp
  | succ k ih =>
      intro i t tEnd h
      obtain ⟨s, dur, hobs, h1, h2, h3, hrest⟩ := h
      rw [pollLoop.eq_def, hobs]
      dsimp only
      rw [if_neg h1, if_neg h2, if_neg (by omega)]
      rw [ih (i + 1) (t + dur + 1) tEnd hrest]
      congr 1
      omega

/-- With a credential file supplied the interactive-auth branch of line
135 can never fire, whatever the process prints. -/
theorem pollLoop_true_no_auth_aux :
    ∀ n deadline (obs : Nat → Obs) i t, deadline + 1 - t ≤ n →
      (pollLoop true deadline obs i t).1 ≠ PollResult.failed .authRequired := by
  intro n
  induction n with
  | zero =>
      intro d obs i t hn
      rw [pollLoop.eq_def]
      cases hobs : obs i with
      | exited c => dsimp only; split <;> simp
      | block => simp
      | line s dur =>
          dsimp only
          split
          · rename_i h1
            exact absurd h1.2.2 (by simp)
          · split
            · simp
            · split
              · simp
              · rename_i h3
                exfalso; omega
  | succ n ih =>
      intro d obs i t hn
      rw [pollLoop.eq_def]
      cases hobs : obs i with
      | exited c => dsimp only; split <;> simp
      | block => simp
      | line s dur =>
          dsimp only
          split
          · rename_i h1
            exact absurd h1.2.2 (by simp)
          · split
            · simp
            · split
              · simp
              · exact ih d obs (i + 1) (t + dur + 1) (by omega)

/-- Wrapper of the previous lemma without the fuel bound. -/
theorem pollLoop_true_no_auth (deadline : Nat) (obs : Nat → Obs) (i t : Nat) :
    (pollLoop true deadline obs i t).1 ≠ PollResult.failed .authRequired :=
  pollLoop_true_no_auth_aux (deadline + 1) deadline obs i t (by omega)

/-! ## Scope-shape lemmas -/

/-- The four possible outcomes of the spawn-and-supervise phase, with the
credential-file state and lifecycle trace each one produces. -/
theorem spawnAndPoll_shapes (cfg : Config) (env : SupEnv) (b : Bool) (cred : CredArg) :
    spawnAndPoll cfg env b cred = ⟨.acqError .spawnFailed, credIsTemp cred, []⟩
    ∨ (∃ e, spawnAndPoll cfg env b cred = ⟨.acqError e, false, [.spawn, .terminated]⟩)
    ∨ spawnAndPoll cfg env b cred
        = ⟨if b then .bodyError else .bodyOk, false, [.spawn, .connected, .terminated]⟩
    ∨ spawnAndPoll cfg env b cred = ⟨.acqHangs, credIsTemp cred, [.spawn]⟩ := by
  unfold spawnAndPoll
  dsimp only
  split
  · exact .inl rfl
  · split
    · exact .inr (.inr (.inl rfl))
    · exact .inr (.inl ⟨_, rfl⟩)
    · exact .inr (.inr (.inr rfl))

/-- A whole scope either fails before spawning (empty trace, no cred file
left) or behaves as some spawn-and-supervise run. -/
theorem scope_cases (cfg : Config) (env : SupEnv) (b : Bool) :
    (∃ e, startOpenvpnScoped cfg env b = ⟨.acqError e, false, []⟩)
    ∨ (∃ cred, startOpenvpnScoped cfg env b = spawnAndPoll cfg env b cred) := by
  unfold startOpenvpnScoped
  split
  · exact .inl ⟨_, rfl⟩
  · split
    · exact .inl ⟨_, rfl⟩
    · split
      · split
        · exact .inl ⟨_, rfl⟩
        · exact .inr ⟨.file, rfl⟩
      · split
        · split
          · exact .inl ⟨_, rfl⟩
          · exact .inr ⟨.temp, rfl⟩
        · exact .inr ⟨.noAuth, rfl⟩

/-- C2 (amended): after the tunnel-session scope has exited - success,
acquisition failure, or body fault alike - the transient credential file
no longer exists on disk, provided the spawn call itself did not raise
(a hanging polling loop never exits the scope and is excluded by the
first hypothesis). -/
theorem transient_cred_removed_on_exit (cfg : Config) (env : SupEnv) (b : Bool)
    (h1 : (startOpenvpnScoped cfg env b).scopeExit ≠ .acqHangs)
    (h2 : (startOpenvpnScoped cfg env b).scopeExit ≠ .acqError .spawnFailed) :
    (startOpenvpnScoped cfg env b).credFileExists = false := by
  rcases scope_cases cfg env b with ⟨e, he⟩ | ⟨cred, hc⟩
  · rw [he]
  · rw [hc] at h1 h2 ⊢
    rcases spawnAndPoll_shapes cfg env b cred with h | ⟨e, h⟩ | h | h
    · rw [h] at h2; simp at h2
    · rw [h]
    · rw [h]
    · rw [h] at h1; simp at h1

/-- C2 counterexample: with inline credentials configured, the temp file
of lines 97-103 is created before the try/finally of line 122 begins; if
subprocess.Popen (line 118) raises, the scope exits by exception with the
transient credential file still on disk. -/
theorem transient_cred_leak_on_spawn_failure :
    startOpenvpnScoped cfgUP supSpawnFail false
      = ⟨.acqError .spawnFailed, true, []⟩ := by
  decide

/-- Witness for the amended C2 theorem at a concrete world. -/
theorem transient_cred_removed_witness :
    (startOpenvpnScoped cfgNoCred supSpawnFail false).credFileExists = false :=
  transient_cred_removed_on_exit cfgNoCred supSpawnFail false (by decide) (by decide)

/-- C6: with neither an auth file nor a username/secret pair configured,
acquisition fails with the configuration error of line 68 before any
tunnel process is spawned: the lifecycle trace is empty. -/
theorem no_credentials_fails_before_spawn (cfg : Config) (env : SupEnv) (b : Bool)
    (h : (truthy cfg.openvpnAuthFile
        || (truthy cfg.openvpnUser && truthy cfg.openvpnPass)) = false) :
    startOpenvpnScoped cfg env b = ⟨.acqError .noCredentials, false, []⟩
    ∧ Ev.spawn ∉ (startOpenvpnScoped cfg env b).trace := by
  have he : startOpenvpnScoped cfg env b = ⟨.acqError .noCredentials, false, []⟩ := by
    unfold startOpenvpnScoped
    rw [if_pos h]
  exact ⟨he, by rw [he]; simp⟩

/-- Witness for C6 at a concrete world. -/
theorem no_credentials_fails_witness :
    startOpenvpnScoped cfgNoCred supW false = ⟨.acqError .noCredentials, false, []⟩
    ∧ Ev.spawn ∉ (startOpenvpnScoped cfgNoCred supW false).trace :=
  no_credentials_fails_before_spawn cfgNoCred supW false (by decide)

/-- With a credential-file argument present, supervision never ends in
the interactive-auth error. -/
theorem spawnAndPoll_no_auth (cfg : Config) (env : SupEnv) (b : Bool) (cred : CredArg)
    (h : (truthy cfg.openvpnAuthFile || credIsTemp cred) = true) :
    isAuthRequiredExit (spawnAndPoll cfg env b cred).scopeExit = false := by
  unfold spawnAndPoll
  dsimp only
  rw [h]
  split
  · rfl
  · have hn := pollLoop_true_no_auth (10 * cfg.connectTimeout) env.obs 0 0
    split
    · cases b <;> rfl
    · rename_i e snd heq
      rw [heq] at hn
      simp at hn
      cases e <;> simp_all [isAuthRequiredExit]
    · rfl

/-- C10: line 67 guarantees every spawned process has a credential-file
argument, so the interactive-auth branch of lines 134-139 is unreachable:
no run of the scope can end in AuthRequiredError. -/
theorem auth_required_branch_unreachable (cfg : Config) (env : SupEnv) (b : Bool) :
    isAuthRequiredExit (startOpenvpnScoped cfg env b).scopeExit = false := by
  unfold startOpenvpnScoped
  split
  · rfl
  · split
    · rfl
    · split
      · split
        · rfl
        · rename_i hcred hbin haf hex
          exact spawnAndPoll_no_auth cfg env b .file (by simp [credIsTemp, haf])
      · split
        · split
          · rfl
          · exact spawnAndPoll_no_auth cfg env b .temp (by simp [credIsTemp])
        · rename_i hcred hbin haf hup
          exfalso
          simp_all

/-! ## Evaluation of the concrete worlds -/

/-- The immediately-connecting world reaches the with-body and tears the
session down. -/
theorem scopeW_eval :
    startOpenvpnScoped cfgW supW false
      = ⟨.bodyOk, false, [.spawn, .connected, .terminated]⟩ := by
  have hp : pollLoop (truthy cfgW.openvpnAuthFile || credIsTemp .file)
      (10 * cfgW.connectTimeout) supW.obs 0 0 = (.connected, 0) := by
    have h := pollLoop_success_line (truthy cfgW.openvpnAuthFile || credIsTemp .file)
      (10 * cfgW.connectTimeout) supW.obs 0 0 "CONNECTED,SUCCESS" 0 rfl
      (by decide) (by decide) (by decide)
    simpa using h
  unfold startOpenvpnScoped spawnAndPoll
  rw [if_neg (by decide), if_neg (by decide), if_pos (by decide), if_neg (by decide)]
  dsimp only
  rw [if_neg (by decide), hp]
  rfl

/-- The forever-silent world leaves the scope stuck in the polling loop. -/
theorem scopeHang_eval :
    startOpenvpnScoped cfgW supHang false = ⟨.acqHangs, false, [.spawn]⟩ := by
  have hp : pollLoop (truthy cfgW.openvpnAuthFile || credIsTemp .file)
      (10 * cfgW.connectTimeout) supHang.obs 0 0 = (.hangs, 0) :=
    pollLoop_blocked _ _ _ 0 0 rfl
  unfold startOpenvpnScoped spawnAndPoll
  rw [if_neg (by decide), if_neg (by decide), if_pos (by decide), if_neg (by decide)]
  dsimp only
  rw [if_neg (by decide), hp]
  rfl

/-- In the all-success world one iteration records a successful action. -/
theorem processConfigW_eval :
    processConfig cfgW ⟨supW, webW⟩ = (.actionOk, [.spawn, .connected, .terminated]) := by
  simp [processConfig, scopeW_eval]
  rfl

/-- In the silent-tunnel world one iteration hangs. -/
theorem processConfigHang_eval :
    processConfig cfgW ⟨supHang, webW⟩ = (.hung, [.spawn]) := by
  simp [processConfig, scopeHang_eval]

/-! ## C4: the executor's failure channel -/

/-- C4 counterexample: when the anchor text never appears,
perform_web_action does not return an outcome value - the PWTimeout is
re-raised by line 218 and escapes to the orchestrator as an exception. -/
theorem web_action_raises_counterexample :
    (performWebAction webFailAnchor).result = Except.error WebFault.anchorTimeout := by
  rfl

/-- C4 (amended): every executor failure reaches the orchestrator as an
exception, which the per-action handler of lines 255-258 turns into a
logged per-configuration record: the loop itself never observes it. -/
theorem web_fault_contained_per_iteration (cfg : Config) (it : IterEnv) (f : WebFault)
    (hconn : (startOpenvpnScoped cfg it.sup false).scopeExit = .bodyOk)
    (hf : (performWebAction it.web).result = .error f) :
    (processConfig cfg it).1 = .actionFailed f := by
  simp [processConfig, hconn, hf]

/-- Witness for the amended C4 theorem: a connected tunnel and a failing
anchor search yield a recorded action failure. -/
theorem web_fault_contained_witness :
    (processConfig cfgW ⟨supW, webFailAnchor⟩).1
      = .actionFailed .anchorTimeout := by
  apply web_fault_contained_per_iteration cfgW ⟨supW, webFailAnchor⟩ .anchorTimeout
  · rw [scopeW_eval]
  · rfl

/-! ## C3: the connect deadline against a blocking readline -/

/-- C3 (code_bug): proc.stdout.readline() (line 131) is a blocking call,
so a tunnel process that stays alive and writes nothing keeps the loop
stuck forever - the deadline check of line 144 is never reached and no
timeout error is ever raised, for every deadline; and a process whose
first line only arrives after the deadline makes the timeout fire
arbitrarily later than deadline plus one poll interval. -/
theorem silent_process_never_times_out :
    (∀ (hasCred : Bool) (deadline i t : Nat),
        pollLoop hasCred deadline (fun _ => Obs.block) i t = (.hangs, t))
    ∧ (∀ deadline : Nat,
        pollLoop true deadline (fun _ => Obs.line "x" (deadline + 100)) 0 0
          = (.failed .connectTimeout, deadline + 100)) := by
  constructor
  · intro hasCred d i t
    exact pollLoop_blocked hasCred d _ i t rfl
  · intro d
    have hs : isSuccessLine "x" = false := by decide
    rw [pollLoop.eq_def]
    dsimp only
    rw [if_neg (by simp), if_neg (by simp [hs]), if_pos (by omega)]
    simp

/-! ## C7: process exit before a success signature -/

/-- C7 (amended): when the polling loop reaches an iteration that
observes the exited process - every earlier observation being a line that
triggered no classification branch and stayed within the deadline -
acquisition fails with the process-exited error of lines 125-130,
carrying the exit code when it is non-zero. -/
theorem process_exit_before_success_fails (obs : Nat → Obs) (hasCred : Bool)
    (deadline k i t tEnd : Nat) (c : Int)
    (hskip : loopSkips obs hasCred deadline k i t tEnd)
    (hexit : obs (i + k) = Obs.exited c) :
    pollLoop hasCred deadline obs i t
      = (if c = 0 then (.failed .procExitedEarly, tEnd)
         else (.failed (.procFailedCode c), tEnd)) := by
  rw [pollLoop_skips obs hasCred deadline k i t tEnd hskip]
  rw [pollLoop.eq_def, hexit]

/-- Witness for the C7 theorem at a concrete observation stream: one
harmless line, then the process is seen exited with status 3. -/
theorem process_exit_witness :
    pollLoop true 300 obsExit 0 0 = (.failed (.procFailedCode 3), 8) := by
  have h := process_exit_before_success_fails obsExit true 300 1 0 0 8 3
    ⟨"hello", 7, rfl, by decide, by decide, by omega, by norm_num [loopSkips]⟩ rfl
  simpa using h

/-- C7 counterexample: the stream sits silent for 40 s before EOF and the
process exits with status 1, never emitting a success signature; with the
30 s deadline the loop raises the connect timeout of line 145, not a
process-exited error. -/
theorem process_exit_counterexample :
    pollLoop true 300 obsLateExit 0 0 = (.failed .connectTimeout, 400) := by
  have hobs : obsLateExit 0 = Obs.line "" 400 := rfl
  rw [pollLoop.eq_def, hobs]
  dsimp only
  rw [if_neg (by simp), if_neg (by simp), if_pos (by norm_num)]

/-! ## C1: the orchestrator loop -/

/-- Without a forever-blocking iteration the loop records exactly one
outcome per file, in list order, and reaches the summary line. -/
theorem runLoop_no_hang (cfg : Config) (worlds : String → IterEnv) :
    ∀ files : List String,
      (∀ f, f ∈ files → (processConfig cfg (worlds f)).1 ≠ .hung) →
      (runLoop cfg worlds files).summary
          = files.map (fun f => (f, (processConfig cfg (worlds f)).1))
      ∧ (runLoop cfg worlds files).summaryLogged = true := by
  intro files
  induction files with
  | nil => intro _; exact ⟨rfl, rfl⟩
  | cons f rest ih =>
      intro h
      have hf : (processConfig cfg (worlds f)).1 ≠ .hung := h f (by simp)
      obtain ⟨ih1, ih2⟩ := ih (fun g hg => h g (by simp [hg]))
      simp only [runLoop]
      rw [if_neg hf]
      exact ⟨by simp [ih1], ih2⟩

/-- C1 (amended): provided at least one configuration was discovered and
no tunnel process blocks its readline forever, the loop of lines 249-262
attempts every configuration exactly once in list order, records exactly
one outcome per configuration - each depending only on that
configuration's own world - and the completion summary of line 264 is
logged. -/
theorem orchestrator_one_outcome_per_config (cfg : Config)
    (worlds : String → IterEnv) (files : List String)
    (hne : files ≠ [])
    (hdec : ∀ f, f ∈ files → (processConfig cfg (worlds f)).1 ≠ .hung) :
    (mainRun cfg worlds files).summary
        = files.map (fun f => (f, (processConfig cfg (worlds f)).1))
    ∧ (mainRun cfg worlds files).summaryLogged = true := by
  unfold mainRun
  rw [if_neg hne]
  exact runLoop_no_hang cfg worlds files hdec

/-- Witness for the amended C1 theorem: one configuration whose tunnel
acquisition fails still yields exactly one record and the summary. -/
theorem orchestrator_one_outcome_witness :
    (mainRun cfgNoCred (fun _ => (⟨supW, webW⟩ : IterEnv)) ["a.ovpn"]).summary
        = [("a.ovpn", IterOutcome.tunnelFailed .noCredentials)]
    ∧ (mainRun cfgNoCred (fun _ => (⟨supW, webW⟩ : IterEnv)) ["a.ovpn"]).summaryLogged
        = true := by
  obtain ⟨h1, h2⟩ := orchestrator_one_outcome_per_config cfgNoCred
    (fun _ => (⟨supW, webW⟩ : IterEnv)) ["a.ovpn"] (by decide)
    (by intro f hf; simp at hf; subst hf; decide)
  refine ⟨?_, h2⟩
  rw [h1]
  decide

/-- C1 counterexample: with zero discovered configurations main returns
at line 245 before the loop, so no completion summary is logged; and a
forever-silent tunnel process on the first of two configurations stalls
the loop, so the second configuration is never attempted and only one
record exists. -/
theorem orchestrator_summary_counterexample :
    (mainRun cfgW worldsW []).summaryLogged = false
    ∧ (mainRun cfgW worldsHang ["a.ovpn", "b.ovpn"]).summary
        = [("a.ovpn", IterOutcome.hung)] := by
  constructor
  · rfl
  · have hp : processConfig cfgW (worldsHang "a.ovpn") = (.hung, [.spawn]) := by
      have h := processConfigHang_eval
      simpa [worldsHang] using h
    simp [mainRun, runLoop, hp]

/-! ## C5: the single-tunnel sequencing invariant -/

/-- Appending preserves the take-closed bound when the left part is
balanced. -/
theorem prefixBound_append {a b : Ev} {x y : List Ev}
    (hx : prefixBound a b x) (hbal : x.count a ≤ x.count b)
    (hy : prefixBound a b y) : prefixBound a b (x ++ y) := by
  intro n
  rw [List.take_append_eq_append_take, List.count_append, List.count_append]
  rcases le_or_lt n x.length with h | h
  · have h0 : n - x.length = 0 := by omega
    rw [h0]
    simpa using hx n
  · rw [List.take_of_length_le (by omega)]
    have hb := hy (n - x.length)
    omega

/-- For a concrete list it is enough to check takes up to its length,
a decidable condition. -/
theorem prefixBound_of_all (a b : Ev) (tr : List Ev)
    (h : ∀ n ∈ List.range (tr.length + 1),
        (tr.take n).count a ≤ (tr.take n).count b + 1) :
    prefixBound a b tr := by
  intro n
  rcases le_or_lt n tr.length with hn | hn
  · exact h n (by simp [List.mem_range]; omega)
  · rw [List.take_of_length_le (by omega)]
    have hl := h tr.length (by simp [List.mem_range])
    rwa [List.take_length] at hl

/-- Every iteration's trace is one of four shapes, and the stalled shape
is exactly the hung outcome. -/
theorem processConfig_trace_cases (cfg : Config) (it : IterEnv) :
    (processConfig cfg it).2 = []
    ∨ (processConfig cfg it).2 = [.spawn, .terminated]
    ∨ (processConfig cfg it).2 = [.spawn, .connected, .terminated]
    ∨ ((processConfig cfg it).2 = [.spawn] ∧ (processConfig cfg it).1 = .hung) := by
  rcases scope_cases cfg it.sup false with ⟨e, he⟩ | ⟨cred, hc⟩
  · left
    simp [processConfig, he]
  · rcases spawnAndPoll_shapes cfg it.sup false cred with h | ⟨e, h⟩ | h | h
    all_goals rw [h] at hc
    · left
      simp [processConfig, hc]
    · right; left
      simp [processConfig, hc]
    · right; right; left
      cases hw : (performWebAction it.web).result <;> simp [processConfig, hc, hw]
    · right; right; right
      simp [processConfig, hc]

/-- Core induction for C5: with the bound and balance facts about the
four per-iteration shapes, every whole-run trace keeps the bound. -/
theorem runLoop_prefixBound (a b : Ev) (cfg : Config) (worlds : String → IterEnv)
    (hnil : prefixBound a b [])
    (hs1 : prefixBound a b [Ev.spawn])
    (hst : prefixBound a b [Ev.spawn, Ev.terminated])
    (hsct : prefixBound a b [Ev.spawn, Ev.connected, Ev.terminated])
    (bnil : ([] : List Ev).count a ≤ ([] : List Ev).count b)
    (bst : [Ev.spawn, Ev.terminated].count a ≤ [Ev.spawn, Ev.terminated].count b)
    (bsct : [Ev.spawn, Ev.connected, Ev.terminated].count a
        ≤ [Ev.spawn, Ev.connected, Ev.terminated].count b) :
    ∀ files, prefixBound a b (runLoop cfg worlds files).trace := by
  intro files
  induction files with
  | nil => exact hnil
  | cons f rest ih =>
      simp only [runLoop]
      by_cases ho : (processConfig cfg (worlds f)).1 = .hung
      · rw [if_pos ho]
        dsimp only
        rcases processConfig_trace_cases cfg (worlds f) with h | h | h | ⟨h, _⟩ <;>
          rw [h]
        · exact hnil
        · exact hst
        · exact hsct
        · exact hs1
      · rw [if_neg ho]
        dsimp only
        rcases processConfig_trace_cases cfg (worlds f) with h | h | h | ⟨h, ho2⟩
        · rw [h]
          exact prefixBound_append hnil bnil ih
        · rw [h]
          exact prefixBound_append hst bst ih
        · rw [h]
          exact prefixBound_append hsct bsct ih
        · exact absurd ho2 ho

/-- C5: at every point during every run at most one session is connected
and at most one spawned process is unterminated: in each take-closed
slice of the lifecycle trace, connected events (resp. spawn events)
exceed terminated events by at most one, so a new tunnel is never started
before the previous scope has torn its process down. -/
theorem at_most_one_connected_tunnel (cfg : Config) (worlds : String → IterEnv)
    (files : List String) (n : Nat) :
    (((mainRun cfg worlds files).trace.take n).count Ev.connected
        ≤ ((mainRun cfg worlds files).trace.take n).count Ev.terminated + 1)
    ∧ (((mainRun cfg worlds files).trace.take n).count Ev.spawn
        ≤ ((mainRun cfg worlds files).trace.take n).count Ev.terminated + 1) := by
  have hconn : prefixBound Ev.connected Ev.terminated (mainRun cfg worlds files).trace := by
    unfold mainRun
    split
    · intro m; simp
    · exact runLoop_prefixBound Ev.connected Ev.terminated cfg worlds
        (prefixBound_of_all _ _ _ (by decide))
        (prefixBound_of_all _ _ _ (by decide))
        (prefixBound_of_all _ _ _ (by decide))
        (prefixBound_of_all _ _ _ (by decide))
        (by decide) (by decide) (by decide) files
  have hspawn : prefixBound Ev.spawn Ev.terminated (mainRun cfg worlds files).trace := by
    unfold mainRun
    split
    · intro m; simp
    · exact runLoop_prefixBound Ev.spawn Ev.terminated cfg worlds
        (prefixBound_of_all _ _ _ (by decide))
        (prefixBound_of_all _ _ _ (by decide))
        (prefixBound_of_all _ _ _ (by decide))
        (prefixBound_of_all _ _ _ (by decide))
        (by decide) (by decide) (by decide) files
  exact ⟨hconn n, hspawn n⟩

/-! ## C8: section-scoped vote controls -/

/-- C8: the vote button and vote-count locators are built from the
matched anchor by walking exactly four ancestor levels and selecting
within that section; consequently every element they can resolve to lies
strictly inside the four-up ancestor of an anchor match - never elsewhere
on the page - and the executor clicks only the button locator and reads
only the vote-count locator. -/
theorem vote_controls_scoped_to_anchor_section :
    (buttonLocator = Locator.select (Locator.ancestor sectionLocator 4) buttonSelector
      ∧ votesLocator = Locator.select (Locator.ancestor sectionLocator 4) votesSelector)
    ∧ (∀ pg q, resolvesPW pg buttonLocator q →
        ∃ p, resolvesPW pg sectionLocator p ∧ descOf (p.take (p.length - 4)) q)
    ∧ (∀ pg q, resolvesPW pg votesLocator q →
        ∃ p, resolvesPW pg sectionLocator p ∧ descOf (p.take (p.length - 4)) q)
    ∧ (∀ env l, (performWebAction env).clicked = some l → l = buttonLocator)
    ∧ (∀ env l, l ∈ (performWebAction env).reads → l = votesLocator) := by
  refine ⟨⟨rfl, rfl⟩, ?_, ?_, ?_, ?_⟩
  · intro pg q h
    obtain ⟨p', ⟨p, hp, hanc⟩, hdesc, hm⟩ := h
    exact ⟨p, hp, hanc ▸ hdesc⟩
  · intro pg q h
    obtain ⟨p', ⟨p, hp, hanc⟩, hdesc, hm⟩ := h
    exact ⟨p, hp, hanc ▸ hdesc⟩
  · intro env l h
    unfold performWebAction at h
    repeat' split at h
    all_goals simp_all
  · intro env l h
    unfold performWebAction at h
    repeat' split at h
    all_goals simp_all

/-- Witness for C8: on the sample page the button at path [0, 1] resolves
inside the section [0], the four-up ancestor of the anchor at
[0, 0, 0, 0, 0]. -/
theorem vote_controls_scoped_witness :
    ∃ p, resolvesPW samplePage sectionLocator p
      ∧ descOf (p.take (p.length - 4)) [0, 1] := by
  apply vote_controls_scoped_to_anchor_section.2.1 samplePage [0, 1]
  exact ⟨[0], ⟨[0, 0, 0, 0, 0], ⟨by decide, by decide⟩, by decide⟩,
    ⟨[1], by decide, by decide⟩, by decide⟩

/-! ## C9: the dead retry settings -/

/-- Iteration behaviour does not read the retry fields. -/
theorem processConfig_retry_irrelevant (bin : String) (af u p : Option String)
    (ct mr rd mr' rd' : Nat) (it : IterEnv) :
    processConfig ⟨bin, af, u, p, ct, mr, rd⟩ it
      = processConfig ⟨bin, af, u, p, ct, mr', rd'⟩ it := rfl

/-- Loop behaviour does not read the retry fields. -/
theorem runLoop_retry_irrelevant (bin : String) (af u p : Option String)
    (ct mr rd mr' rd' : Nat) (worlds : String → IterEnv) :
    ∀ files, runLoop ⟨bin, af, u, p, ct, mr, rd⟩ worlds files
      = runLoop ⟨bin, af, u, p, ct, mr', rd'⟩ worlds files := by
  intro files
  induction files with
  | nil => rfl
  | cons f rest ih =>
      simp only [runLoop]
      rw [processConfig_retry_irrelevant bin af u p ct mr rd mr' rd' (worlds f), ih]

/-- C9: MAX_RETRIES and RETRY_DELAY (lines 40-41) are referenced by no
retry logic: two runs differing only in those two settings produce
identical summaries, summary flags and lifecycle traces. -/
theorem retry_settings_never_affect_run (bin : String) (af u p : Option String)
    (ct mr rd mr' rd' : Nat) (worlds : String → IterEnv) (files : List String) :
    mainRun ⟨bin, af, u, p, ct, mr, rd⟩ worlds files
      = mainRun ⟨bin, af, u, p, ct, mr', rd'⟩ worlds files := by
  unfold mainRun
  split
  · rfl
  · exact runLoop_retry_irrelevant bin af u p ct mr rd mr' rd' worlds files

end SurveyClicker
